import Mathlib

/-!
Shallow embedding of the hass-dashboard repository (Python) in Lean 4,
together with theorems settling the frozen claims about its specification.

Modelling conventions:
- Python exceptions are modelled by the inductive type PyError; fallible code
  returns Except PyError.
- Python datetimes are modelled by integers: epoch seconds for datetime
  values coming from timestamps, proleptic-Gregorian day ordinals for
  calendar-date arithmetic (Python date.toordinal, with ordinal 1 a Monday).
- Python floats that the source immediately truncates with int(...) are
  modelled as integers.
- Python tuple comparison (dataclass order=True) is modelled by an
  executable lexicographic comparison on injective List (List Int) sort
  keys; strings compare by their character code points exactly as in
  Python, booleans as 0 < 1.
- Python sorted(...) is modelled by List.insertionSort over the tuple
  order.  On the lists sorted by this program the order is antisymmetric up
  to equality of elements (the key is built from every field of the
  record), so every comparison sort, stable or not, produces the same list;
  insertionSort is therefore a faithful model of the library sort.
-/

/-- Python exception values that the modelled code can raise.  The two
ValueError constructors correspond to the ValueError raised with the message
about a missing start date in calendar.Event.get_datetime, and to the
ValueError raised by datetime.strptime on data not matching the format. -/
inductive PyError where
  | typeError (msg : String)
  | attributeError (name : String)
  | indexError
  | permissionError
  | valueErrorMissingStartDate (name : String)
  | valueErrorStrptime
  deriving DecidableEq, Repr

/-! ## Lexicographic comparison machinery (model of Python tuple ordering) -/

/-- Strict lexicographic order on lists, parameterized by a strict order on
elements given as a Bool-valued function.  A proper prefix is smaller, as in
Python sequence comparison. -/
def lexLt (ltE : α → α → Bool) : List α → List α → Bool
  | [], [] => false
  | [], _ :: _ => true
  | _ :: _, [] => false
  | a :: as, b :: bs => if ltE a b then true else if ltE b a then false else lexLt ltE as bs

/-- Strict order on Int as a Bool-valued function. -/
def intLtB (a b : Int) : Bool := decide (a < b)

/-- Key of a string for tuple comparison: its character code points, as in
Python string comparison. -/
def strKey (s : String) : List Int := s.data.map (fun c => (c.toNat : Int))

/-- Key of a bool for tuple comparison: Python has False < True. -/
def boolKey (b : Bool) : Int := if b then 1 else 0

/-- Strict lexicographic order on record sort keys: the outer list is the
tuple of fields, each field itself encoded as a list of integers. -/
def recordLt (k1 k2 : List (List Int)) : Bool := lexLt (lexLt intLtB) k1 k2

/-- Non-strict tuple order, derived from the strict one. -/
def recordLe (k1 k2 : List (List Int)) : Bool := !(recordLt k2 k1)

theorem lexLt_connex (ltE : α → α → Bool)
    (h : ∀ a b, ltE a b = false → ltE b a = false → a = b) :
    ∀ l1 l2, lexLt ltE l1 l2 = false → lexLt ltE l2 l1 = false → l1 = l2 := by
  intro l1
  induction l1 with
  | nil =>
    intro l2 h12 _
    cases l2 with
    | nil => rfl
    | cons b bs => simp [lexLt] at h12
  | cons a as ih =>
    intro l2 h12 h21
    cases l2 with
    | nil => simp [lexLt] at h21
    | cons b bs =>
      simp only [lexLt] at h12 h21
      cases hab : ltE a b with
      | true => simp [hab] at h12
      | false =>
        cases hba : ltE b a with
        | true => simp [hba] at h21
        | false =>
          simp [hab, hba] at h12 h21
          rw [h a b hab hba, ih bs h12 h21]

theorem lexLt_trans (ltE : α → α → Bool)
    (hconnex : ∀ a b, ltE a b = false → ltE b a = false → a = b)
    (htrans : ∀ a b c, ltE a b = true → ltE b c = true → ltE a c = true) :
    ∀ l1 l2 l3, lexLt ltE l1 l2 = true → lexLt ltE l2 l3 = true →
      lexLt ltE l1 l3 = true := by
  intro l1
  induction l1 with
  | nil =>
    intro l2 l3 h12 h23
    cases l2 with
    | nil => exact h23
    | cons b bs =>
      cases l3 with
      | nil => simp [lexLt] at h23
      | cons c cs => simp [lexLt]
  | cons a as ih =>
    intro l2 l3 h12 h23
    cases l2 with
    | nil => simp [lexLt] at h12
    | cons b bs =>
      cases l3 with
      | nil => simp [lexLt] at h23
      | cons c cs =>
        simp only [lexLt] at h12 h23 ⊢
        cases hab : ltE a b with
        | true =>
          cases hbc : ltE b c with
          | true => simp [htrans a b c hab hbc]
          | false =>
            cases hcb : ltE c b with
            | true => simp [hbc, hcb] at h23
            | false =>
              have hec : b = c := hconnex b c hbc hcb
              subst hec
              simp [hab]
        | false =>
          cases hba : ltE b a with
          | true => simp [hab, hba] at h12
          | false =>
            have hea : a = b := hconnex a b hab hba
            subst hea
            simp only [hab] at h12
            simp only [Bool.false_eq_true, if_false] at h12
            cases hac : ltE a c with
            | true => simp [hac]
            | false =>
              cases hca : ltE c a with
              | true => simp [hac, hca] at h23
              | false =>
                simp [hac, hca] at h23 ⊢
                exact ih bs cs h12 h23

theorem lexLt_irrefl (ltE : α → α → Bool) (h : ∀ a, ltE a a = false) :
    ∀ l, lexLt ltE l l = false := by
  intro l
  induction l with
  | nil => rfl
  | cons a as ih => simp [lexLt, h a, ih]

theorem intLtB_irrefl : ∀ a : Int, intLtB a a = false := by
  intro a; simp [intLtB]

theorem intLtB_connex : ∀ a b : Int, intLtB a b = false → intLtB b a = false → a = b := by
  intro a b h1 h2; simp [intLtB] at h1 h2; omega

theorem intLtB_trans :
    ∀ a b c : Int, intLtB a b = true → intLtB b c = true → intLtB a c = true := by
  intro a b c h1 h2; simp [intLtB] at h1 h2 ⊢; omega

theorem intListLt_irrefl : ∀ l : List Int, lexLt intLtB l l = false :=
  lexLt_irrefl intLtB intLtB_irrefl

theorem intListLt_connex :
    ∀ l1 l2 : List Int, lexLt intLtB l1 l2 = false → lexLt intLtB l2 l1 = false → l1 = l2 :=
  lexLt_connex intLtB intLtB_connex

theorem intListLt_trans :
    ∀ l1 l2 l3 : List Int, lexLt intLtB l1 l2 = true → lexLt intLtB l2 l3 = true →
      lexLt intLtB l1 l3 = true :=
  lexLt_trans intLtB intLtB_connex intLtB_trans

theorem recordLt_irrefl : ∀ k : List (List Int), recordLt k k = false :=
  lexLt_irrefl _ intListLt_irrefl

theorem recordLt_connex :
    ∀ k1 k2, recordLt k1 k2 = false → recordLt k2 k1 = false → k1 = k2 :=
  lexLt_connex _ intListLt_connex

theorem recordLt_trans :
    ∀ k1 k2 k3, recordLt k1 k2 = true → recordLt k2 k3 = true → recordLt k1 k3 = true :=
  lexLt_trans _ intListLt_connex intListLt_trans

theorem recordLe_total : ∀ k1 k2, recordLe k1 k2 = true ∨ recordLe k2 k1 = true := by
  intro k1 k2
  simp only [recordLe, Bool.not_eq_true']
  cases h12 : recordLt k2 k1 with
  | false => exact Or.inl rfl
  | true =>
    cases h21 : recordLt k1 k2 with
    | false => exact Or.inr rfl
    | true =>
      have := recordLt_trans k1 k2 k1 h21 h12
      rw [recordLt_irrefl k1] at this
      exact absurd this (by simp)

theorem recordLe_trans :
    ∀ k1 k2 k3, recordLe k1 k2 = true → recordLe k2 k3 = true → recordLe k1 k3 = true := by
  intro k1 k2 k3 h12 h23
  simp only [recordLe, Bool.not_eq_true'] at h12 h23 ⊢
  cases h31 : recordLt k3 k1 with
  | false => rfl
  | true =>
    exfalso
    cases h12' : recordLt k1 k2 with
    | true =>
      have := recordLt_trans k3 k1 k2 h31 h12'
      rw [h23] at this
      exact absurd this (by simp)
    | false =>
      have heq : k1 = k2 := recordLt_connex k1 k2 h12' h12
      rw [heq] at h31
      rw [h23] at h31
      exact absurd h31 (by simp)

/-! ## Icon Mapper (src/dashboard/weather.py) -/

/-- Module-level constant THUNDERSTORM from weather.py. -/
def THUNDERSTORM : Int := 200

/-- Module-level constant DRIZZLE from weather.py. -/
def DRIZZLE : Int := 300

/-- Module-level constant RAIN from weather.py. -/
def RAIN : Int := 500

/-- Module-level constant SNOW from weather.py. -/
def SNOW : Int := 600

/-- Helper for the return statement of the icon mapper: the source returns
the pair of the css class prefixed by the f-string wi wi- together with the
human label. -/
def wiClassName (css_class : String) (name : String) : String × String :=
  ("wi wi-" ++ css_class, name)

/-- Model of weather.py's numeric icon mapper (source name has a leading
underscore).  The Python match statement is an ordered chain of tests
assigning css_class and name, with defaults na and Unknown; the returned
pair prefixes the css class with wi wi- (see wiClassName). -/
def weather_to_icon_name (weather_code : Int) : String × String :=
  if THUNDERSTORM ≤ weather_code ∧ weather_code ≤ THUNDERSTORM + 99 then
    wiClassName "thunderstorm" "Thunderstorm"
  else if DRIZZLE ≤ weather_code ∧ weather_code ≤ DRIZZLE + 99 then
    wiClassName "sprinkle" "Drizzle"
  else if RAIN ≤ weather_code ∧ weather_code ≤ RAIN + 99 then
    wiClassName "rain" "Rain"
  else if SNOW ≤ weather_code ∧ weather_code ≤ SNOW + 99 then
    wiClassName "snow" "Snow"
  else if weather_code = 701 then wiClassName "fog" "Mist"
  else if weather_code = 711 then wiClassName "smoke" "Smoke"
  else if weather_code = 721 then wiClassName "day-haze" "Haze"
  else if weather_code = 731 ∨ weather_code = 761 then wiClassName "dust" "Dust"
  else if weather_code = 741 then wiClassName "fog" "Fog"
  else if weather_code = 751 then wiClassName "sandstorm" "Sand"
  else if weather_code = 762 then wiClassName "volcano" "Ash"
  else if weather_code = 771 then wiClassName "strong-wind" "Squall"
  else if weather_code = 781 then wiClassName "tornado" "Tornado"
  else if weather_code = 800 then wiClassName "day-sunny" "Clear"
  else if weather_code = 801 then wiClassName "cloud" "Few Clouds"
  else if weather_code = 802 ∨ weather_code = 803 then wiClassName "cloudy" "Partly Cloudy"
  else if weather_code = 804 then wiClassName "cloudy" "Overcast"
  else wiClassName "na" "Unknown"

/-- Specification-side icon mapping, written from the words of the spec
(sections 4.1 and 8): range buckets 200-299 thunderstorm, 300-399 drizzle,
500-599 rain, 600-699 snow; an explicit table for the discrete codes 701,
711, 721, 731, 741, 751, 761, 762, 771, 781, 800, 801, 802, 803, 804; and a
single unknown sentinel pair for every other code (in this codebase the
sentinel icon class is the na icon, wi wi-na). -/
def iconMappingSpec (code : Int) : String × String :=
  if 200 ≤ code ∧ code ≤ 299 then ("wi wi-thunderstorm", "Thunderstorm")
  else if 300 ≤ code ∧ code ≤ 399 then ("wi wi-sprinkle", "Drizzle")
  else if 500 ≤ code ∧ code ≤ 599 then ("wi wi-rain", "Rain")
  else if 600 ≤ code ∧ code ≤ 699 then ("wi wi-snow", "Snow")
  else if code = 701 then ("wi wi-fog", "Mist")
  else if code = 711 then ("wi wi-smoke", "Smoke")
  else if code = 721 then ("wi wi-day-haze", "Haze")
  else if code = 731 ∨ code = 761 then ("wi wi-dust", "Dust")
  else if code = 741 then ("wi wi-fog", "Fog")
  else if code = 751 then ("wi wi-sandstorm", "Sand")
  else if code = 762 then ("wi wi-volcano", "Ash")
  else if code = 771 then ("wi wi-strong-wind", "Squall")
  else if code = 781 then ("wi wi-tornado", "Tornado")
  else if code = 800 then ("wi wi-day-sunny", "Clear")
  else if code = 801 then ("wi wi-cloud", "Few Clouds")
  else if code = 802 ∨ code = 803 then ("wi wi-cloudy", "Partly Cloudy")
  else if code = 804 then ("wi wi-cloudy", "Overcast")
  else ("wi wi-na", "Unknown")

/-- C7: the numeric icon mapper is total: on every integer code it agrees
with the documented specification table, sending each range bucket and each
explicitly listed discrete code to its documented class and label, and every
other integer code to the unknown sentinel pair. -/
theorem C7_icon_mapping_total : ∀ code : Int, weather_to_icon_name code = iconMappingSpec code := by
  intro code
  unfold weather_to_icon_name iconMappingSpec
  rw [show THUNDERSTORM = (200:Int) from rfl, show DRIZZLE = (300:Int) from rfl,
    show RAIN = (500:Int) from rfl, show SNOW = (600:Int) from rfl,
    show (200:Int) + 99 = 299 from by decide, show (300:Int) + 99 = 399 from by decide,
    show (500:Int) + 99 = 599 from by decide, show (600:Int) + 99 = 699 from by decide]
  by_cases h1 : 200 ≤ code ∧ code ≤ 299
  · rw [if_pos h1, if_pos h1]; rfl
  rw [if_neg h1, if_neg h1]
  by_cases h2 : 300 ≤ code ∧ code ≤ 399
  · rw [if_pos h2, if_pos h2]; rfl
  rw [if_neg h2, if_neg h2]
  by_cases h3 : 500 ≤ code ∧ code ≤ 599
  · rw [if_pos h3, if_pos h3]; rfl
  rw [if_neg h3, if_neg h3]
  by_cases h4 : 600 ≤ code ∧ code ≤ 699
  · rw [if_pos h4, if_pos h4]; rfl
  rw [if_neg h4, if_neg h4]
  by_cases h5 : code = 701
  · rw [if_pos h5, if_pos h5]; rfl
  rw [if_neg h5, if_neg h5]
  by_cases h6 : code = 711
  · rw [if_pos h6, if_pos h6]; rfl
  rw [if_neg h6, if_neg h6]
  by_cases h7 : code = 721
  · rw [if_pos h7, if_pos h7]; rfl
  rw [if_neg h7, if_neg h7]
  by_cases h8 : code = 731 ∨ code = 761
  · rw [if_pos h8, if_pos h8]; rfl
  rw [if_neg h8, if_neg h8]
  by_cases h9 : code = 741
  · rw [if_pos h9, if_pos h9]; rfl
  rw [if_neg h9, if_neg h9]
  by_cases h10 : code = 751
  · rw [if_pos h10, if_pos h10]; rfl
  rw [if_neg h10, if_neg h10]
  by_cases h11 : code = 762
  · rw [if_pos h11, if_pos h11]; rfl
  rw [if_neg h11, if_neg h11]
  by_cases h12 : code = 771
  · rw [if_pos h12, if_pos h12]; rfl
  rw [if_neg h12, if_neg h12]
  by_cases h13 : code = 781
  · rw [if_pos h13, if_pos h13]; rfl
  rw [if_neg h13, if_neg h13]
  by_cases h14 : code = 800
  · rw [if_pos h14, if_pos h14]; rfl
  rw [if_neg h14, if_neg h14]
  by_cases h15 : code = 801
  · rw [if_pos h15, if_pos h15]; rfl
  rw [if_neg h15, if_neg h15]
  by_cases h16 : code = 802 ∨ code = 803
  · rw [if_pos h16, if_pos h16]; rfl
  rw [if_neg h16, if_neg h16]
  by_cases h17 : code = 804
  · rw [if_pos h17, if_pos h17]; rfl
  rw [if_neg h17, if_neg h17]
  rfl

/-! ## Weather payload model (src/dashboard/typed_def.py)

Only the fields that the dashboard code reads are modelled; the remaining
TypedDict fields (pressure, humidity, wind, and so on) are never consulted
by weather.py and are omitted.  Temperatures are floats in the payload and
are immediately truncated with int(...) by the normalizers; they are
modelled as integers. -/

/-- One weather descriptor from the one-call payload; the code reads only
its id. -/
structure OneCallWeather where
  id : Int
  deriving DecidableEq, Repr

/-- Daily temperature block; the code reads only min and max. -/
structure OneCallTemp where
  min : Int
  max : Int
  deriving DecidableEq, Repr

/-- Current conditions block; the code reads temp and weather. -/
structure OneCallCurrentWeather where
  temp : Int
  weather : List OneCallWeather
  deriving DecidableEq, Repr

/-- One hourly forecast record; the code reads dt, temp and weather. -/
structure OneCallHourlyWeather where
  dt : Int
  temp : Int
  weather : List OneCallWeather
  deriving DecidableEq, Repr

/-- One daily forecast record; the code reads dt, temp and weather. -/
structure OneCallDailyWeather where
  dt : Int
  temp : OneCallTemp
  weather : List OneCallWeather
  deriving DecidableEq, Repr

/-- The combined one-call payload; the code reads current, hourly, daily. -/
structure OneCallWeatherData where
  current : OneCallCurrentWeather
  hourly : List OneCallHourlyWeather
  daily : List OneCallDailyWeather
  deriving DecidableEq, Repr

/-! ## Forecast normalizers and the Weather snapshot (src/dashboard/weather.py) -/

/-- HourlyForecast dataclass (order=True over the fields date, temp,
condition, weather_class in declaration order).  The datetime built by
datetime.fromtimestamp is modelled by the epoch value itself. -/
structure HourlyForecast where
  date : Int
  temp : Int
  condition : String
  weather_class : String
  deriving DecidableEq, Repr

/-- HourlyForecast.from_one_call: takes the first weather descriptor (or a
synthetic id 0 when the list is empty, as next(iter(...), dict(id=0))
does), maps it through the icon mapper, and copies dt and temp. -/
def HourlyForecast.from_one_call (w : OneCallHourlyWeather) : HourlyForecast :=
  let weather_id := (w.weather.headD { id := 0 }).id
  let p := weather_to_icon_name weather_id
  { condition := p.2, weather_class := p.1, date := w.dt, temp := w.temp }

/-- Tuple-comparison key of an HourlyForecast, in dataclass field order. -/
def HourlyForecast.sortKey (f : HourlyForecast) : List (List Int) :=
  [[f.date], [f.temp], strKey f.condition, strKey f.weather_class]

/-- The dataclass order on HourlyForecast. -/
def HourlyForecast.le (a b : HourlyForecast) : Prop :=
  recordLe a.sortKey b.sortKey = true

instance : DecidableRel HourlyForecast.le :=
  fun a b => inferInstanceAs (Decidable (recordLe a.sortKey b.sortKey = true))

instance : IsTotal HourlyForecast HourlyForecast.le :=
  ⟨fun a b => recordLe_total a.sortKey b.sortKey⟩

instance : IsTrans HourlyForecast HourlyForecast.le :=
  ⟨fun a b c => recordLe_trans a.sortKey b.sortKey c.sortKey⟩

/-- Forecast dataclass (order=True over the fields date, high_temp,
low_temp, condition, weather_class in declaration order). -/
structure Forecast where
  date : Int
  high_temp : Int
  low_temp : Int
  condition : String
  weather_class : String
  deriving DecidableEq, Repr

/-- Forecast.from_one_call: first weather descriptor (synthetic id 0 when
absent) through the icon mapper; dt as the date; temp.max and temp.min as
the high and low. -/
def Forecast.from_one_call (w : OneCallDailyWeather) : Forecast :=
  let weather_id := (w.weather.headD { id := 0 }).id
  let p := weather_to_icon_name weather_id
  { condition := p.2, weather_class := p.1, date := w.dt,
    high_temp := w.temp.max, low_temp := w.temp.min }

/-- Tuple-comparison key of a Forecast, in dataclass field order. -/
def Forecast.sortKey (f : Forecast) : List (List Int) :=
  [[f.date], [f.high_temp], [f.low_temp], strKey f.condition, strKey f.weather_class]

/-- The dataclass order on Forecast. -/
def Forecast.le (a b : Forecast) : Prop :=
  recordLe a.sortKey b.sortKey = true

instance : DecidableRel Forecast.le :=
  fun a b => inferInstanceAs (Decidable (recordLe a.sortKey b.sortKey = true))

instance : IsTotal Forecast Forecast.le :=
  ⟨fun a b => recordLe_total a.sortKey b.sortKey⟩

instance : IsTrans Forecast Forecast.le :=
  ⟨fun a b c => recordLe_trans a.sortKey b.sortKey c.sortKey⟩

/-- Weather dataclass from weather.py. -/
structure Weather where
  temperature : Int
  forecasts : List Forecast
  hourly : List HourlyForecast
  high_temp : Int
  low_temp : Int
  condition : String
  weather_class : String
  deriving DecidableEq, Repr

/-- Weather.from_one_call: top-level condition and weather_class come from
the current block's first weather descriptor; daily and hourly lists are
normalized and sorted; forecasts.pop(0) removes the earliest daily entry,
whose high and low become the snapshot's top-level values.  Python's
list.pop(0) raises IndexError on an empty list, modelled by the [] branch. -/
def Weather.from_one_call (one : OneCallWeatherData) : Except PyError Weather :=
  let weather_id := (one.current.weather.headD { id := 0 }).id
  let p := weather_to_icon_name weather_id
  let temperature := one.current.temp
  let forecasts := List.insertionSort Forecast.le (one.daily.map Forecast.from_one_call)
  let hourly :=
    List.insertionSort HourlyForecast.le (one.hourly.map HourlyForecast.from_one_call)
  match forecasts with
  | [] => .error .indexError
  | todays_forecast :: rest =>
    .ok { condition := p.2, weather_class := p.1, temperature := temperature,
          high_temp := todays_forecast.high_temp,
          low_temp := todays_forecast.low_temp,
          forecasts := rest, hourly := hourly }

/-- The entry the source pops as todays_forecast: the head of the sorted
normalized daily list. -/
def todaysForecast (one : OneCallWeatherData) : Option Forecast :=
  (List.insertionSort Forecast.le (one.daily.map Forecast.from_one_call)).head?

/-! ## Time-Bounded Cache (src/dashboard/cache.py) and its use by get_weather

Two layers are modelled.  The class-dispatch layer captures what the Python
runtime does with the calls written in weather.py: Cache(600) must bind the
two required positional parameters path and expiration of Cache.init, and
attribute lookups on a Cache instance only succeed for the methods the
class actually defines, load_cache and save_cache.  The semantic layer
models load_cache and save_cache themselves against an explicit file state
and clock. -/

/-- Python argument values for the modelled constructor call. -/
inductive PyVal where
  | int (n : Int)
  | str (s : String)
  deriving DecidableEq, Repr

/-- A constructed Cache object: the class stores a path and an expiration
in seconds.  The backing file named by path is passed explicitly to the
method models as a CacheFileState. -/
structure Cache where
  path : String
  expiration : Int
  deriving DecidableEq, Repr

/-- The required positional parameters of Cache.init (no defaults). -/
def Cache.initRequiredParams : List String := ["path", "expiration"]

/-- Calling the Cache constructor with a list of positional arguments:
Python raises TypeError unless every required parameter is bound. -/
def Cache.construct (args : List PyVal) : Except PyError Unit :=
  if args.length = Cache.initRequiredParams.length then .ok ()
  else .error (.typeError "Cache.init missing required positional arguments")

/-- The methods defined by the Cache class body. -/
inductive CacheMethod where
  | load_cache
  | save_cache
  deriving DecidableEq, Repr

/-- Attribute lookup on a Cache instance: only the two defined methods
resolve; any other attribute name raises AttributeError. -/
def Cache.getattrMethod (name : String) : Except PyError CacheMethod :=
  if name = "load_cache" then .ok .load_cache
  else if name = "save_cache" then .ok .save_cache
  else .error (.attributeError name)

/-- The module-level statement weather_cache = Cache(600) of weather.py,
evaluated when the module is imported: a single positional argument for two
required parameters. -/
def weather_cache : Except PyError Unit := Cache.construct [.int 600]

/-- Model of get_weather's interaction with its cache.  The source first
needs the module-level weather_cache (whose construction already fails with
TypeError), then calls weather_cache.load(cache_key), and after a
successful network fetch weather_cache.save(cache_key, weather); neither
attribute exists on Cache.  Control can never reach the network fetch, so
everything past the failing binds is dead code; the final expression is
never evaluated.  The cache key is the already-formatted string built from
the latitude and longitude. -/
def get_weather (cache_key : String) : Except PyError Weather := do
  let _cache ← weather_cache
  let _load ← Cache.getattrMethod "load"
  let _save ← Cache.getattrMethod "save"
  .error (.typeError "unreachable")

/-- Content of the cache's backing file: a well-formed pickle of a value,
or bytes that make pickle.load raise UnpicklingError. -/
inductive CacheFileContent (V : Type) where
  | good (v : V)
  | corrupt
  deriving DecidableEq, Repr

/-- State of the cache's backing file: missing, or present with a
last-modified time, a readability flag (an unreadable file makes open
raise PermissionError), and content. -/
inductive CacheFileState (V : Type) where
  | missing
  | present (mtime : Int) (readable : Bool) (content : CacheFileContent V)
  deriving DecidableEq, Repr

/-- Cache.load_cache against an explicit file state and clock, following
the source line by line: stat on a missing file raises FileNotFoundError
which the except clause catches (returning None); a file whose mtime plus
expiration is not in the future skips the if-body and returns None; within
the freshness window, open on an unreadable file raises PermissionError,
which the except clause does NOT list, so it propagates; pickle.load on
corrupt content raises UnpicklingError, which is caught (returning None);
otherwise the unpickled value is returned. -/
def Cache.load_cache (c : Cache) (file : CacheFileState V) (now : Int) :
    Except PyError (Option V) :=
  match file with
  | .missing => .ok none
  | .present mtime readable content =>
    if mtime + c.expiration > now then
      if readable then
        match content with
        | .good v => .ok (some v)
        | .corrupt => .ok none
      else .error .permissionError
    else .ok none

/-- Cache.save_cache: opens the file for writing and pickles the value,
unconditionally replacing the previous state; the file's mtime becomes the
current time. -/
def Cache.save_cache (c : Cache) (file : CacheFileState V) (v : V) (now : Int) :
    CacheFileState V :=
  .present now true (.good v)

/-! ## Calendar (src/dashboard/calendar.py) -/

/-- Event dataclass (frozen, order=True over the fields start, end, name,
all_day in declaration order).  The Python field end is a reserved word in
Lean and is modelled as end_. -/
structure Event where
  start : Int
  end_ : Int
  name : String
  all_day : Bool
  deriving DecidableEq, Repr

/-- Tuple-comparison key of an Event, in dataclass field order. -/
def Event.sortKey (e : Event) : List (List Int) :=
  [[e.start], [e.end_], strKey e.name, [boolKey e.all_day]]

/-- The dataclass order on Event. -/
def Event.le (a b : Event) : Prop := recordLe a.sortKey b.sortKey = true

instance : DecidableRel Event.le :=
  fun a b => inferInstanceAs (Decidable (recordLe a.sortKey b.sortKey = true))

instance : IsTotal Event Event.le :=
  ⟨fun a b => recordLe_total a.sortKey b.sortKey⟩

instance : IsTrans Event Event.le :=
  ⟨fun a b c => recordLe_trans a.sortKey b.sortKey c.sortKey⟩

/-- Python truthiness applied to d.get(key): the walrus test
if dt := d.get(key) succeeds only when the key is present and its value is
truthy; a missing key yields None and an empty string is falsy, so both
fail the test. -/
def truthyGet (d : String → Option String) (key : String) : Option String :=
  match d key with
  | some s => if s = "" then none else some s
  | none => none

/-- Event.get_datetime, with the two datetime.strptime calls passed as
parameters (they are datetime-library collaborators): a parser returns some
parsed value on success and none when strptime would raise its ValueError
about time data not matching the format (modelled as valueErrorStrptime,
which the source does not catch).  When neither the dateTime nor the date
key passes the truthiness test, the source raises ValueError with a message
naming the event and saying it is missing a start date. -/
def Event.get_datetime (strptimeDateTime strptimeDate : String → Option Int)
    (name : String) (d : String → Option String) : Except PyError (Int × Bool) :=
  match truthyGet d "dateTime" with
  | some dt =>
    match strptimeDateTime dt with
    | some t => .ok (t, false)
    | none => .error .valueErrorStrptime
  | none =>
    match truthyGet d "date" with
    | some dt =>
      match strptimeDate dt with
      | some t => .ok (t, true)
      | none => .error .valueErrorStrptime
    | none => .error (.valueErrorMissingStartDate name)

/-- Calendar day of a datetime: event.start.date().  With datetimes
modelled as epoch seconds the calendar day is the floor division by the
number of seconds per day. -/
def event_date (t : Int) : Int := Int.fdiv t 86400

/-- The grouping stage of get_calendars, applied to the per-calendar fetch
results (each already parsed into Event values; identical raw records parse
to equal Events because Event is a frozen value type).  The source builds
the set of all events across results (set semantics deduplicates equal
events; dedup of the flattened list followed by sorting yields the same
canonical list), sorts it, then appends each event in sorted order to
grouped[event.start.date()].  The list stored under a given day is
therefore exactly the in-order sublist of the sorted events whose start
date equals that day. -/
def get_calendars_grouped (results : List (List Event)) (day : Int) : List Event :=
  (List.insertionSort Event.le (results.flatten.dedup)).filter
    (fun e => decide (event_date e.start = day))

/-! ## Date-Range Builder (src/dashboard/generate.py) -/

/-- Python date.weekday(): Monday is 0.  With dates modelled as proleptic
Gregorian ordinals (date.toordinal, where ordinal 1 is January 1 of year 1,
a Monday), the weekday is (o - 1) mod 7. -/
def pyWeekday (o : Int) : Int := (o - 1) % 7

/-- get_calendar_dates: start is current_date minus its weekday (the Monday
of the current week), end is start plus weeks weeks, and the result lists
one date per day of range((end - start).days) = range(7 * weeks).  The
datetime is modelled by its date ordinal: the function only ever shifts the
datetime by whole days, so its time-of-day component cancels out of
(end - start).days and never affects the .date() projections.  The source
gives weeks a default value of 4; callers of this model pass it
explicitly. -/
def get_calendar_dates (current_date : Int) (weeks : Nat) : List Int × Int :=
  let start := current_date - pyWeekday current_date
  let endDate := start + 7 * (weeks : Int)
  ((List.range (7 * weeks)).map (fun i : Nat => start + (i : Int)), endDate)

/-! ## Claims about the cache and get_weather (C2, C3, C4) -/

/-- C2: get_weather can never successfully read from or write to its cache:
the module-level weather_cache = Cache(600) passes one positional argument
although Cache.init requires both a path and an expiration (TypeError at
module initialization), the class defines only load_cache and save_cache so
the attribute lookups for load and save raise AttributeError, and
consequently every invocation of the modelled get_weather evaluates to an
error, never to a Weather value. -/
theorem C2_get_weather_never_succeeds (cache_key : String) :
    get_weather cache_key =
      .error (.typeError "Cache.init missing required positional arguments") ∧
    weather_cache =
      .error (.typeError "Cache.init missing required positional arguments") ∧
    Cache.getattrMethod "load" = .error (.attributeError "load") ∧
    Cache.getattrMethod "save" = .error (.attributeError "save") :=
  ⟨rfl, rfl, rfl, rfl⟩

/-- C3 counterexample: the claim speaks of save(k, v) and load(k) on the
cache, but the Cache class defines no load or save attribute at all, so the
claimed call sequence raises AttributeError instead of returning a
(value, stale) pair; the round trip as stated never happens. -/
theorem C3_counterexample :
    Cache.getattrMethod "load" = .error (.attributeError "load") ∧
    Cache.getattrMethod "save" = .error (.attributeError "save") :=
  ⟨rfl, rfl⟩

/-- C3 (amended): the cache API is the unkeyed pair save_cache/load_cache
with no staleness flag.  For every value v, save_cache(v) immediately
followed by load_cache returns the value whenever expiration is positive,
and once the time since the save exceeds expiration, load_cache returns
None (the absent result), the expired-entry policy this implementation
documents by construction. -/
theorem C3_cache_round_trip (V : Type) (c : Cache) (file : CacheFileState V)
    (v : V) (t t' : Int) :
    (0 < c.expiration →
      Cache.load_cache c (Cache.save_cache c file v t) t = .ok (some v)) ∧
    (c.expiration < t' - t →
      Cache.load_cache c (Cache.save_cache c file v t) t' = .ok none) := by
  constructor
  · intro h
    have hc : t + c.expiration > t := by omega
    show Cache.load_cache c (.present t true (.good v)) t = .ok (some v)
    simp [Cache.load_cache, hc]
  · intro h
    have hc : ¬ t + c.expiration > t' := by omega
    show Cache.load_cache c (.present t true (.good v)) t' = .ok none
    simp [Cache.load_cache, hc]

/-- C3 witness: a concrete round trip with expiration 600: an immediate
load returns the saved value, and a load 601 seconds later returns None. -/
theorem C3_cache_round_trip_witness :
    Cache.load_cache ⟨"weather", 600⟩
      (Cache.save_cache ⟨"weather", 600⟩ (CacheFileState.missing) (42 : Int) 0) 0 =
      .ok (some 42) ∧
    Cache.load_cache ⟨"weather", 600⟩
      (Cache.save_cache ⟨"weather", 600⟩ (CacheFileState.missing) (42 : Int) 0) 601 =
      .ok none :=
  ⟨(C3_cache_round_trip Int ⟨"weather", 600⟩ .missing 42 0 601).1 (by decide),
   (C3_cache_round_trip Int ⟨"weather", 600⟩ .missing 42 0 601).2 (by decide)⟩

/-- C4 counterexample: a file that exists inside the freshness window but
is unreadable makes load_cache raise PermissionError: open raises it and
the except clause only lists FileNotFoundError and pickle.UnpicklingError,
so it propagates to the caller, refuting never raises any error. -/
theorem C4_counterexample :
    Cache.load_cache ⟨"weather", 600⟩
      (CacheFileState.present 0 false (.good (5 : Int))) 1 =
      .error .permissionError := rfl

/-- C4 (amended): a load whose backing file is missing, or whose content is
corrupt (pickle.load raises UnpicklingError), behaves identically to a
cache miss, returning the absent result without raising; an unreadable file
inside the freshness window instead propagates PermissionError (see the
counterexample). -/
theorem C4_corrupt_or_missing_is_miss (V : Type) (c : Cache) (now mtime : Int) :
    Cache.load_cache c (CacheFileState.missing : CacheFileState V) now = .ok none ∧
    Cache.load_cache c (CacheFileState.present mtime true .corrupt : CacheFileState V) now =
      .ok none := by
  constructor
  · rfl
  · by_cases h : mtime + c.expiration > now
    · simp [Cache.load_cache, h]
    · simp [Cache.load_cache, h]

/-! ## Claims about the Weather snapshot builder (C5) -/

/-- A concrete one-call payload whose daily list is empty. -/
def emptyDailyPayload : OneCallWeatherData :=
  { current := { temp := 60, weather := [{ id := 800 }] }, hourly := [], daily := [] }

/-- C5 counterexample: on a payload with an empty daily list the builder
fails with the builtin IndexError raised by forecasts.pop(0) on an empty
list; no MissingFieldError class exists anywhere in the codebase, so the
failure is not a missing-field validation error. -/
theorem C5_counterexample :
    Weather.from_one_call emptyDailyPayload = .error .indexError := rfl

/-- C5 (amended): for every one-call payload whose daily list is empty,
building the Weather snapshot fails with IndexError (from pop(0) on the
empty sorted forecast list), and the exception is surfaced to the caller:
from_one_call catches nothing, so the model returns the error itself. -/
theorem C5_empty_daily_raises_index_error (one : OneCallWeatherData)
    (h : one.daily = []) :
    Weather.from_one_call one = .error .indexError := by
  simp [Weather.from_one_call, h, List.insertionSort]

/-- C5 witness: the amended theorem applied to the concrete empty-daily
payload. -/
theorem C5_witness :
    emptyDailyPayload.daily = [] ∧
    Weather.from_one_call emptyDailyPayload = .error .indexError :=
  ⟨rfl, C5_empty_daily_raises_index_error emptyDailyPayload rfl⟩

/-! ## Claims about event time parsing (C6) -/

/-- An event time record whose dateTime field is present but holds the
empty string, and which has no date field. -/
def emptyDateTimeRecord : String → Option String :=
  fun key => if key = "dateTime" then some "" else none

/-- C6 counterexample: the record has its explicit date-time field present
(bound to the empty string), yet get_datetime still fails with the
missing-start-date ValueError, because the walrus test if dt := d.get(...)
treats a falsy value exactly like an absent key.  Parsing therefore does
not fail exactly when both representations are absent. -/
theorem C6_counterexample :
    emptyDateTimeRecord "dateTime" = some "" ∧
    Event.get_datetime (fun _ => some 0) (fun _ => some 0) "A" emptyDateTimeRecord =
      .error (.valueErrorMissingStartDate "A") :=
  ⟨rfl, rfl⟩

/-- C6 (amended): get_datetime fails with the missing-start-date ValueError
exactly when both time representations are absent or empty (Python-falsy);
when the dateTime field passes the truthiness test and strptime accepts its
value the parse succeeds as a timed event, and when only the date field
passes and strptime accepts it the parse succeeds as an all-day event (a
present-but-malformed value instead fails with strptime's own
ValueError). -/
theorem C6_get_datetime_cases (pDT pD : String → Option Int) (name : String)
    (d : String → Option String) :
    (Event.get_datetime pDT pD name d = .error (.valueErrorMissingStartDate name) ↔
      truthyGet d "dateTime" = none ∧ truthyGet d "date" = none) ∧
    (∀ s t, truthyGet d "dateTime" = some s → pDT s = some t →
      Event.get_datetime pDT pD name d = .ok (t, false)) ∧
    (∀ s t, truthyGet d "dateTime" = none → truthyGet d "date" = some s →
      pD s = some t → Event.get_datetime pDT pD name d = .ok (t, true)) := by
  refine ⟨?_, ?_, ?_⟩
  · cases h1 : truthyGet d "dateTime" with
    | some s =>
      cases h2 : pDT s with
      | some t => simp [Event.get_datetime, h1, h2]
      | none => simp [Event.get_datetime, h1, h2]
    | none =>
      cases h2 : truthyGet d "date" with
      | some s =>
        cases h3 : pD s with
        | some t => simp [Event.get_datetime, h1, h2, h3]
        | none => simp [Event.get_datetime, h1, h2, h3]
      | none => simp [Event.get_datetime, h1, h2]
  · intro s t h1 h2
    simp [Event.get_datetime, h1, h2]
  · intro s t h1 h2 h3
    simp [Event.get_datetime, h1, h2, h3]

/-- An event time record with a well-formed dateTime value. -/
def timedEventRecord : String → Option String :=
  fun key => if key = "dateTime" then some "2024-06-01T10:00:00-0400" else none

/-- C6 witness: the amended theorem applied to a concrete record whose
dateTime parses, yielding a timed (not all-day) event. -/
theorem C6_witness :
    Event.get_datetime (fun _ => some 1717250400) (fun _ => some 0) "A" timedEventRecord =
      .ok (1717250400, false) :=
  (C6_get_datetime_cases (fun _ => some 1717250400) (fun _ => some 0) "A"
    timedEventRecord).2.1 "2024-06-01T10:00:00-0400" 1717250400 rfl rfl

/-! ## Claims about the date grid (C9) -/

/-- C9: get_calendar_dates with four weeks always returns exactly 28 dates;
the first is the Monday less than or equal to the reference (the reference
minus its weekday, which has weekday 0, does not exceed the reference and
is at most six days before it); and consecutive dates are exactly one day
apart, hence the list is strictly ascending with no gaps. -/
theorem C9_calendar_date_grid (d : Int) :
    (get_calendar_dates d 4).1.length = 28 ∧
    (get_calendar_dates d 4).1.head? = some (d - pyWeekday d) ∧
    pyWeekday (d - pyWeekday d) = 0 ∧
    d - pyWeekday d ≤ d ∧
    d < d - pyWeekday d + 7 ∧
    List.Chain' (fun a b => b = a + 1) (get_calendar_dates d 4).1 := by
  have hgrid :
      (get_calendar_dates d 4).1 =
        (List.range 28).map (fun i : Nat => d - pyWeekday d + (i : Int)) := rfl
  have hmod0 : (0 : Int) ≤ (d - 1) % 7 := Int.emod_nonneg _ (by norm_num)
  have hmod7 : (d - 1) % 7 < 7 := Int.emod_lt_of_pos _ (by norm_num)
  refine ⟨?_, ?_, ?_, ?_, ?_, ?_⟩
  · rw [hgrid]; simp
  · rw [hgrid, List.head?_map]
    rw [show (List.range 28).head? = some 0 from rfl]
    simp
  · simp only [pyWeekday]
    omega
  · simp only [pyWeekday]
    omega
  · simp only [pyWeekday]
    omega
  · rw [hgrid, List.chain'_map]
    rw [show (28 : Nat) = Nat.succ 27 from rfl, List.chain'_range_succ]
    intro m _
    push_cast
    ring

/-! ## Claims about the Weather snapshot invariants (C8, C1) -/

theorem recordLe_head_le (x y : Int) (K K' : List (List Int))
    (h : recordLe ([x] :: K) ([y] :: K') = true) : x ≤ y := by
  simp only [recordLe, Bool.not_eq_true'] at h
  by_contra hlt
  push_neg at hlt
  simp [recordLt, lexLt, intLtB, hlt] at h

theorem Forecast.le_date {a b : Forecast} (h : Forecast.le a b) : a.date ≤ b.date :=
  recordLe_head_le a.date b.date _ _ h

theorem Event.le_start {a b : Event} (h : Event.le a b) : a.start ≤ b.start :=
  recordLe_head_le a.start b.start _ _ h

/-- When the daily list is non-empty, the sorted normalized daily list is a
cons cell. -/
theorem sorted_daily_cons (one : OneCallWeatherData) (h : one.daily ≠ []) :
    ∃ f rest,
      List.insertionSort Forecast.le (one.daily.map Forecast.from_one_call) = f :: rest := by
  cases hF : List.insertionSort Forecast.le (one.daily.map Forecast.from_one_call) with
  | nil =>
    exfalso
    have hperm := List.perm_insertionSort Forecast.le (one.daily.map Forecast.from_one_call)
    rw [hF] at hperm
    have hlen := hperm.length_eq
    rw [List.length_nil, List.length_map] at hlen
    exact h (List.length_eq_zero.mp hlen.symm)
  | cons f rest => exact ⟨f, rest, rfl⟩

/-- Evaluation of Weather.from_one_call and todaysForecast once the sorted
daily list is known to be a cons cell. -/
theorem from_one_call_cons (one : OneCallWeatherData) (f : Forecast) (rest : List Forecast)
    (hcons :
      List.insertionSort Forecast.le (one.daily.map Forecast.from_one_call) = f :: rest) :
    Weather.from_one_call one =
      .ok { condition := (weather_to_icon_name ((one.current.weather.headD { id := 0 }).id)).2,
            weather_class :=
              (weather_to_icon_name ((one.current.weather.headD { id := 0 }).id)).1,
            temperature := one.current.temp,
            high_temp := f.high_temp,
            low_temp := f.low_temp,
            forecasts := rest,
            hourly :=
              List.insertionSort HourlyForecast.le
                (one.hourly.map HourlyForecast.from_one_call) } ∧
    todaysForecast one = some f := by
  constructor
  · unfold Weather.from_one_call
    rw [hcons]
  · unfold todaysForecast
    rw [hcons]
    rfl

/-- C8: for every one-call payload with a non-empty daily list the build
succeeds, the snapshot's forecasts list is one shorter than the raw daily
list, and the popped entry (the head of the sorted normalized daily list,
an earliest-dated normalized entry) supplies the snapshot's top-level high
and low temperatures. -/
theorem C8_snapshot_invariant (one : OneCallWeatherData) (h : one.daily ≠ []) :
    ∃ w f, Weather.from_one_call one = .ok w ∧
      todaysForecast one = some f ∧
      w.forecasts.length = one.daily.length - 1 ∧
      w.high_temp = f.high_temp ∧
      w.low_temp = f.low_temp ∧
      f ∈ one.daily.map Forecast.from_one_call ∧
      ∀ g ∈ one.daily.map Forecast.from_one_call, f.date ≤ g.date := by
  obtain ⟨f, rest, hcons⟩ := sorted_daily_cons one h
  obtain ⟨hw, ht⟩ := from_one_call_cons one f rest hcons
  have hperm := List.perm_insertionSort Forecast.le (one.daily.map Forecast.from_one_call)
  have hsort := List.sorted_insertionSort Forecast.le (one.daily.map Forecast.from_one_call)
  rw [hcons] at hperm hsort
  refine ⟨_, f, hw, ht, ?_, rfl, rfl, ?_, ?_⟩
  · have hlen := hperm.length_eq
    rw [List.length_cons, List.length_map] at hlen
    show rest.length = one.daily.length - 1
    omega
  · exact hperm.mem_iff.mp (List.mem_cons_self f rest)
  · intro g hg
    rcases List.mem_cons.mp (hperm.mem_iff.mpr hg) with hgf | hgrest
    · rw [hgf]
    · exact Forecast.le_date (List.rel_of_sorted_cons hsort g hgrest)

/-- A concrete payload whose current block reports rain (id 500) while the
earliest daily entry reports clear sky (id 800). -/
def currentRainTodayClearPayload : OneCallWeatherData :=
  { current := { temp := 60, weather := [{ id := 500 }] },
    hourly := [],
    daily :=
      [ { dt := 100, temp := { min := 50, max := 70 }, weather := [{ id := 800 }] },
        { dt := 200, temp := { min := 48, max := 65 }, weather := [{ id := 500 }] } ] }

/-- C8 witness: the snapshot invariant applied to the concrete two-day
payload. -/
theorem C8_witness :
    currentRainTodayClearPayload.daily ≠ [] ∧
    (∃ w f, Weather.from_one_call currentRainTodayClearPayload = .ok w ∧
      todaysForecast currentRainTodayClearPayload = some f ∧
      w.forecasts.length = currentRainTodayClearPayload.daily.length - 1 ∧
      w.high_temp = f.high_temp ∧
      w.low_temp = f.low_temp ∧
      f ∈ currentRainTodayClearPayload.daily.map Forecast.from_one_call ∧
      ∀ g ∈ currentRainTodayClearPayload.daily.map Forecast.from_one_call,
        f.date ≤ g.date) :=
  ⟨by decide, C8_snapshot_invariant currentRainTodayClearPayload (by decide)⟩

/-- C1 counterexample: on the concrete payload the snapshot's condition is
Rain, taken from the current block, while the popped earliest daily entry's
condition is Clear; the top-level condition is therefore not taken from the
popped daily entry as the claim states. -/
theorem C1_counterexample :
    (Weather.from_one_call currentRainTodayClearPayload).toOption.map Weather.condition =
      some "Rain" ∧
    (todaysForecast currentRainTodayClearPayload).map Forecast.condition = some "Clear" ∧
    ("Rain" : String) ≠ "Clear" := by
  refine ⟨rfl, rfl, ?_⟩
  decide

/-- C1 (amended): for every one-call payload with a non-empty daily list,
the snapshot's top-level condition and weather_class come from the current
block's first weather descriptor through the icon mapper, while the popped
earliest daily entry supplies only the top-level high and low
temperatures. -/
theorem C1_condition_from_current (one : OneCallWeatherData) (h : one.daily ≠ []) :
    ∃ w f, Weather.from_one_call one = .ok w ∧
      todaysForecast one = some f ∧
      w.condition =
        (weather_to_icon_name ((one.current.weather.headD { id := 0 }).id)).2 ∧
      w.weather_class =
        (weather_to_icon_name ((one.current.weather.headD { id := 0 }).id)).1 ∧
      w.high_temp = f.high_temp ∧
      w.low_temp = f.low_temp := by
  obtain ⟨f, rest, hcons⟩ := sorted_daily_cons one h
  obtain ⟨hw, ht⟩ := from_one_call_cons one f rest hcons
  exact ⟨_, f, hw, ht, rfl, rfl, rfl, rfl⟩

/-- C1 witness: the amended theorem applied to the concrete payload. -/
theorem C1_witness :
    currentRainTodayClearPayload.daily ≠ [] ∧
    (∃ w f, Weather.from_one_call currentRainTodayClearPayload = .ok w ∧
      todaysForecast currentRainTodayClearPayload = some f ∧
      w.condition =
        (weather_to_icon_name
          ((currentRainTodayClearPayload.current.weather.headD { id := 0 }).id)).2 ∧
      w.weather_class =
        (weather_to_icon_name
          ((currentRainTodayClearPayload.current.weather.headD { id := 0 }).id)).1 ∧
      w.high_temp = f.high_temp ∧
      w.low_temp = f.low_temp) :=
  ⟨by decide, C1_condition_from_current currentRainTodayClearPayload (by decide)⟩

/-! ## Claims about calendar grouping (C10) -/

/-- C10: the grouping stage of the calendar fetcher deduplicates identical
event records across calendars (an event occurring in any of the fetch
results appears exactly once in the group of its own start date), an event
is only ever grouped under the key equal to its start date, and each day's
list is ascending by start time. -/
theorem C10_calendar_grouping (results : List (List Event)) (day : Int) (e : Event) :
    (e ∈ results.flatten →
      List.count e (get_calendars_grouped results (event_date e.start)) = 1) ∧
    (e ∈ get_calendars_grouped results day → event_date e.start = day) ∧
    List.Pairwise (fun a b => a.start ≤ b.start) (get_calendars_grouped results day) := by
  have hperm := List.perm_insertionSort Event.le (results.flatten.dedup)
  have hsort := List.sorted_insertionSort Event.le (results.flatten.dedup)
  have hnd : (List.insertionSort Event.le (results.flatten.dedup)).Nodup :=
    hperm.nodup_iff.mpr (List.nodup_dedup _)
  refine ⟨?_, ?_, ?_⟩
  · intro he
    have hmem : e ∈ List.insertionSort Event.le (results.flatten.dedup) :=
      hperm.mem_iff.mpr (List.mem_dedup.mpr he)
    have hfil :
        e ∈ get_calendars_grouped results (event_date e.start) :=
      List.mem_filter.mpr ⟨hmem, by simp⟩
    exact List.count_eq_one_of_mem (hnd.filter _) hfil
  · intro he
    have := (List.mem_filter.mp he).2
    simpa using this
  · exact ((hsort.filter _).imp fun h => Event.le_start h)

/-- The spec scenario's event A. -/
def eventA : Event :=
  { start := 1717236000, end_ := 1717239600, name := "A", all_day := false }

/-- C10 witness: two calendars returning the identical record yield exactly
one grouped entry under the event's own start date. -/
theorem C10_witness :
    eventA ∈ ([[eventA], [eventA]] : List (List Event)).flatten ∧
    List.count eventA
      (get_calendars_grouped [[eventA], [eventA]] (event_date eventA.start)) = 1 :=
  ⟨by decide,
   (C10_calendar_grouping [[eventA], [eventA]] (event_date eventA.start) eventA).1
     (by decide)⟩
